import Mathlib

/-!
Shallow embedding of the Student Record Service in `src/DB2.js`
(an Express + Mongoose CRUD service over a single `Student` collection).

The store is modelled as a list of student documents.  Request payloads are
modelled as records of optional JSON values (`JVal`), so that Mongoose's
casting step (and its failures) can be expressed.  Each controller function
(`createStudent`, `getStudentById`, `updateStudent`, `deleteStudent`,
`getAllStudents`, `getStudentsByCourse`) is embedded as a pure function from
the store state (plus the environment inputs Mongoose supplies: the freshly
generated ObjectId and the current time) to a `Response` — the JSON envelope
together with its HTTP status — and the successor state.

Mongoose semantics embedded here, from the schema at `src/DB2.js:19-60`:
  - casting of body values to the schema types (string/number), where a
    failed cast on `Model.create` surfaces inside the `ValidationError`
    (per-path message) and a failed cast on `findByIdAndUpdate` surfaces
    as a `CastError` (caught by the handlers as "Invalid student ID");
  - setters: `trim` on `name` and `course`, `lowercase` on `email`;
  - validators in schema path order, at most one message per path
    (required, then min/max / minlength/maxlength / enum / match);
  - defaults `grade := "C"` and `enrollmentDate := now`;
  - the unique index on `email`, detected at save time (error code 11000),
    hence only after validation has passed;
  - `timestamps: true`: `createdAt`/`updatedAt` set on create, `updatedAt`
    refreshed on update;
  - ObjectId well-formedness (24 hex characters, or any 12-character
    string, as `mongoose.isValidObjectId` accepts).
-/

deriving instance DecidableEq for Except

namespace StudentAPI

/-- A whitespace character, as `String.prototype.trim` strips it. -/
def isWsChar (c : Char) : Bool :=
  c == ' ' || c == '\t' || c == '\n' || c == '\r'

/-- The `trim` setter of the schema (JS `String.prototype.trim`): strip
whitespace from both ends. -/
def trimStr (s : String) : String :=
  ⟨((s.data.dropWhile isWsChar).reverse.dropWhile isWsChar).reverse⟩

/-- Lowering one character (ASCII, as the emails at hand are). -/
def charLower (c : Char) : Char :=
  if ('A' ≤ c) && (c ≤ 'Z') then Char.ofNat (c.toNat + 32) else c

/-- The `lowercase` setter of the schema (JS `String.prototype.toLowerCase`,
on ASCII). -/
def lowerStr (s : String) : String := ⟨s.data.map charLower⟩

/-- The value of a nonempty digit string. -/
def natOfDigits (l : List Char) : Option Nat :=
  if !l.isEmpty && l.all Char.isDigit then
    some (l.foldl (fun acc c => acc * 10 + (c.toNat - 48)) 0)
  else none

/-- JS numeric parsing of a string (`Number(s)`), restricted to the signed
decimal integers Mongoose would accept for `age`; anything else is `NaN`,
i.e. a cast failure. -/
def parseIntStr (s : String) : Option Int :=
  match s.data with
  | '-' :: rest => (natOfDigits rest).map fun n => -(n : Int)
  | l => (natOfDigits l).map fun n => (n : Int)

/-- A JSON scalar as it arrives in a request body: a string or a number.
Numbers are modelled as integers (ages are integral in the schema). -/
inductive JVal where
  | jstr (s : String)
  | jnum (n : Int)
deriving Repr, DecidableEq

/-- A request body for create/update: each schema path is optionally
present.  `enrollmentDate`, when present, is modelled as an already-parsed
timestamp (date parsing is not exercised by any handler branch we verify). -/
structure Payload where
  name : Option JVal
  age : Option JVal
  course : Option JVal
  email : Option JVal
  grade : Option JVal
  enrollmentDate : Option Nat
deriving Repr, DecidableEq

/-- A stored student document, with the store-maintained fields `id`
(the ObjectId, as its string form), `createdAt` and `updatedAt`. -/
structure Student where
  id : String
  name : String
  age : Int
  course : String
  email : String
  grade : String
  enrollmentDate : Nat
  createdAt : Nat
  updatedAt : Nat
deriving Repr, DecidableEq

/-- The state of the document store: the `students` collection, in
insertion order. -/
structure DBState where
  students : List Student
deriving Repr, DecidableEq

/-- The `data` payload of a response: one document, a list of documents, or
the empty object `{}` returned by `deleteStudent`. -/
inductive RData where
  | one (s : Student)
  | many (l : List Student)
  | emptyObj
deriving Repr, DecidableEq

/-- The uniform JSON envelope together with the HTTP status code:
`{success, message?, errors?, data?, count?}`. -/
structure Response where
  status : Nat
  success : Bool
  message : Option String
  errors : Option (List String)
  data : Option RData
  count : Option Nat
deriving Repr, DecidableEq

/-- The 8-value course enumeration of the schema (`src/DB2.js:38`). -/
def courseValues : List String :=
  ["Computer Science", "Mathematics", "Physics", "Chemistry", "Biology",
   "Engineering", "Business", "Arts"]

/-- The grade enumeration of the schema (`src/DB2.js:51`). -/
def gradeValues : List String := ["A", "B", "C", "D", "F"]

/-- A hexadecimal digit, as accepted in an ObjectId string. -/
def isHexDigit (c : Char) : Bool :=
  c.isDigit || (('a' ≤ c) && (c ≤ 'f')) || (('A' ≤ c) && (c ≤ 'F'))

/-- Identifier format of the store: `mongoose.isValidObjectId` accepts a
24-character hex string (or any 12-character string, read as 12 raw bytes).
`findById` and friends raise a `CastError` exactly when this fails. -/
def isValidObjectId (s : String) : Bool :=
  (s.length == 24 && s.toList.all isHexDigit) || s.length == 12

/-- Casting a JSON scalar to the schema type `String` (total: Mongoose
stringifies numbers). -/
def castString : JVal → String
  | .jstr s => s
  | .jnum n => toString n

/-- Casting a JSON scalar to the schema type `Number`: numbers pass
through; strings are parsed, and a non-numeric string is a cast failure
(modelled with JS numeric parsing restricted to integers). -/
def castNumber : JVal → Option Int
  | .jnum n => some n
  | .jstr s => parseIntStr s

/-- The raw text of a JSON scalar, as it is interpolated into Mongoose
cast-failure messages. -/
def jvalRaw : JVal → String
  | .jstr s => s
  | .jnum n => toString n

/-! The email pattern `^\w+([.-]?\w+)*@\w+([.-]?\w+)*(\.\w{2,3})+$` of
`src/DB2.js:47`, embedded as a decidable matcher over the character list.
The regex language decomposes as: a local part matching `\w+([.-]?\w+)*`,
an `@`, then a domain split into a part matching `\w+([.-]?\w+)*` followed
by one or more groups matching `\.\w{2,3}`; the existential split points of
backtracking are realised with `List.any` over split positions. -/

/-- A regex `\w` character: letters, digits, underscore. -/
def isWordChar (c : Char) : Bool := c.isAlpha || c.isDigit || c == '_'

/-- A separator admitted by `[.-]?`: dot or hyphen. -/
def isSepChar (c : Char) : Bool := c == '.' || c == '-'

/-- Matches `(\w|[.-]\w)*`-shaped tails: the remainder of `\w+([.-]?\w+)*`
after its first word character (word characters, with single separators
always followed by a word character). -/
def wordTail : List Char → Bool
  | [] => true
  | [c] => isWordChar c
  | c :: d :: rest =>
    if isWordChar c then wordTail (d :: rest)
    else if isSepChar c then isWordChar d && wordTail rest
    else false

/-- Matches `\w+([.-]?\w+)*` against the whole list. -/
def wordRun : List Char → Bool
  | [] => false
  | c :: rest => isWordChar c && wordTail rest

/-- Matches `(\.\w{2,3})*` against the whole list: blocks of a dot followed
by two or three word characters. -/
def tldTail : List Char → Bool
  | [] => true
  | '.' :: a :: b :: c :: rest =>
      isWordChar a && isWordChar b &&
      (tldTail (c :: rest) || (isWordChar c && tldTail rest))
  | ['.', a, b] => isWordChar a && isWordChar b
  | _ => false

/-- Matches `\w+([.-]?\w+)*(\.\w{2,3})+` against the whole list: some split
into a `wordRun` prefix and a nonempty `tldTail` suffix. -/
def domainRun (l : List Char) : Bool :=
  (List.range (l.length + 1)).any fun i =>
    wordRun (l.take i) && !(l.drop i).isEmpty && tldTail (l.drop i)

/-- The anchored email regex of the schema, as a whole-string matcher:
some split at an `@` with a `wordRun` local part and a `domainRun` rest. -/
def emailMatch (s : String) : Bool :=
  let l := s.toList
  (List.range l.length).any fun i =>
    l.getD i ' ' == '@' && wordRun (l.take i) && domainRun (l.drop (i + 1))

/-! Per-path cast + validation for `Model.create` (full document).  Each
check returns the normalized value or this path's (single) error message,
reproducing the schema of `src/DB2.js:19-60`: the `required` validator runs
first (and, for strings, also rejects the empty string), then the remaining
validators in declaration order; Mongoose records at most one message per
path, and a cast failure on a path replaces its validation. -/

/-- Cast, trim and validate `name` (`src/DB2.js:20-26`). -/
def nameCheck : Option JVal → Except String String
  | none => .error "Student name is required"
  | some v =>
    let t := trimStr (castString v)
    if t = "" then .error "Student name is required"
    else if t.length < 2 then .error "Name must be at least 2 characters long"
    else if t.length > 50 then .error "Name cannot exceed 50 characters"
    else .ok t

/-- Cast and validate `age` (`src/DB2.js:27-32`); a non-numeric value is a
cast failure, whose message Mongoose files under this path. -/
def ageCheck : Option JVal → Except String Int
  | none => .error "Student age is required"
  | some v =>
    match castNumber v with
    | none =>
        .error ("Cast to Number failed for value \"" ++ jvalRaw v ++
          "\" (type string) at path \"age\"")
    | some n =>
      if n < 16 then .error "Age must be at least 16"
      else if n > 100 then .error "Age cannot exceed 100"
      else .ok n

/-- Cast, trim and validate `course` (`src/DB2.js:33-41`); the enum message
interpolates the offending value for `{VALUE}`. -/
def courseCheck : Option JVal → Except String String
  | none => .error "Course is required"
  | some v =>
    let t := trimStr (castString v)
    if t = "" then .error "Course is required"
    else if courseValues.contains t then .ok t
    else .error (t ++ " is not a valid course")

/-- Cast, lowercase and validate `email` (`src/DB2.js:42-48`). -/
def emailCheck : Option JVal → Except String String
  | none => .error "Email is required"
  | some v =>
    let e := lowerStr (castString v)
    if e = "" then .error "Email is required"
    else if emailMatch e then .ok e
    else .error "Please enter a valid email"

/-- Cast and validate `grade`, defaulting an absent grade to "C"
(`src/DB2.js:49-53`); the enum uses Mongoose's stock message. -/
def gradeCheck : Option JVal → Except String String
  | none => .ok "C"
  | some v =>
    let g := castString v
    if gradeValues.contains g then .ok g
    else .error ("`" ++ g ++ "` is not a valid enum value for path `grade`.")

/-- The message of a failed check, if any. -/
def checkMsg {α : Type} : Except String α → List String
  | .error m => [m]
  | .ok _ => []

/-- The messages of a `ValidationError` raised by `Student.create`, in
schema path order — what `Object.values(error.errors).map(val => val.message)`
yields at `src/DB2.js:134`: one message per violated path. -/
def validationErrors (p : Payload) : List String :=
  checkMsg (nameCheck p.name) ++ checkMsg (ageCheck p.age) ++
  checkMsg (courseCheck p.course) ++ checkMsg (emailCheck p.email) ++
  checkMsg (gradeCheck p.grade)

/-- The number of paths of a create payload that violate their
constraints. -/
def violatedFieldCount (p : Payload) : Nat :=
  (checkMsg (nameCheck p.name)).length + (checkMsg (ageCheck p.age)).length +
  (checkMsg (courseCheck p.course)).length +
  (checkMsg (emailCheck p.email)).length +
  (checkMsg (gradeCheck p.grade)).length

/-- Looking a student up by id: `Student.findById` returns the first (and,
with unique `_id`, only) document whose `_id` matches. -/
def findById (st : DBState) (i : String) : Option Student :=
  st.students.find? fun s => s.id == i

/-! The six controller functions of `src/DB2.js`.  Mutating handlers take
the environment inputs the store supplies (the generated ObjectId string
for `create`, and the current time) and return the response together with
the successor store state; read-only handlers return just the response. -/

/-- The controller `createStudent` (`src/DB2.js:117-147`) composed with
`Student.create`: validate the full document (collecting one message per
violated path into a 400 "Validation Error" response); then save, where the
unique index on `email` turns a duplicate into error code 11000, answered
with 400 "Email already exists"; otherwise the document is stored with the
generated id, the defaults, and `createdAt = updatedAt = now`, answered
with 201. -/
def createStudent (st : DBState) (p : Payload) (newId : String) (now : Nat) :
    Response × DBState :=
  match nameCheck p.name, ageCheck p.age, courseCheck p.course,
      emailCheck p.email, gradeCheck p.grade with
  | .ok nm, .ok ag, .ok co, .ok em, .ok gr =>
    if st.students.any fun s => s.email == em then
      (⟨400, false, some "Email already exists", none, none, none⟩, st)
    else
      let s : Student := ⟨newId, nm, ag, co, em, gr,
        p.enrollmentDate.getD now, now, now⟩
      (⟨201, true, some "Student created successfully", none,
        some (.one s), none⟩, ⟨st.students ++ [s]⟩)
  | _, _, _, _, _ =>
      (⟨400, false, some "Validation Error", some (validationErrors p),
        none, none⟩, st)

/-! Update-query semantics of `findByIdAndUpdate(id, body, {new: true,
runValidators: true})` (`src/DB2.js:152-159`): the id and the update
document are cast first (a failure throws a `CastError`, which the handler
at `src/DB2.js:182-187` answers with 400 "Invalid student ID" and no errors
list); then the update validators run on the supplied paths only (`required`
does not fire for absent paths, setters still apply); only then does the
query execute, report a miss, or replace the supplied fields of the first
matching document, refreshing `updatedAt`. -/

/-- Whether casting the update document fails: among the schema paths only
`age` (a `Number`) can fail to cast in our payloads. -/
def updateCastFails (p : Payload) : Bool :=
  match p.age with
  | some v => (castNumber v).isNone
  | none => false

/-- Update validator for `name`: only runs when supplied; `required` is not
re-checked, the length bounds are. -/
def updNameCheck : Option JVal → Except String (Option String)
  | none => .ok none
  | some v =>
    let t := trimStr (castString v)
    if t.length < 2 then .error "Name must be at least 2 characters long"
    else if t.length > 50 then .error "Name cannot exceed 50 characters"
    else .ok (some t)

/-- Update validator for `age` (the cast was already checked by
`updateCastFails`, so a failed cast is out of reach here). -/
def updAgeCheck : Option JVal → Except String (Option Int)
  | none => .ok none
  | some v =>
    match castNumber v with
    | none => .ok none
    | some n =>
      if n < 16 then .error "Age must be at least 16"
      else if n > 100 then .error "Age cannot exceed 100"
      else .ok (some n)

/-- Update validator for `course`: the enum check on the trimmed value. -/
def updCourseCheck : Option JVal → Except String (Option String)
  | none => .ok none
  | some v =>
    let t := trimStr (castString v)
    if courseValues.contains t then .ok (some t)
    else .error (t ++ " is not a valid course")

/-- Update validator for `email`: the match check on the lowercased
value. -/
def updEmailCheck : Option JVal → Except String (Option String)
  | none => .ok none
  | some v =>
    let e := lowerStr (castString v)
    if emailMatch e then .ok (some e)
    else .error "Please enter a valid email"

/-- Update validator for `grade`: the enum check. -/
def updGradeCheck : Option JVal → Except String (Option String)
  | none => .ok none
  | some v =>
    let g := castString v
    if gradeValues.contains g then .ok (some g)
    else .error ("`" ++ g ++ "` is not a valid enum value for path `grade`.")

/-- The messages of a `ValidationError` raised by the update validators, in
schema path order (`src/DB2.js:175`). -/
def updValidationErrors (p : Payload) : List String :=
  checkMsg (updNameCheck p.name) ++ checkMsg (updAgeCheck p.age) ++
  checkMsg (updCourseCheck p.course) ++ checkMsg (updEmailCheck p.email) ++
  checkMsg (updGradeCheck p.grade)

/-- The value a successful update check supplies, or the old value when the
path was absent. -/
def updVal {α : Type} (e : Except String (Option α)) (old : α) : α :=
  match e with
  | .ok (some v) => v
  | _ => old

/-- Replacing the supplied fields of a stored document: `_id` and
`createdAt` are untouched, `updatedAt` is refreshed (`timestamps: true`). -/
def applyUpdate (s : Student) (p : Payload) (now : Nat) : Student :=
  ⟨s.id,
   updVal (updNameCheck p.name) s.name,
   updVal (updAgeCheck p.age) s.age,
   updVal (updCourseCheck p.course) s.course,
   updVal (updEmailCheck p.email) s.email,
   updVal (updGradeCheck p.grade) s.grade,
   p.enrollmentDate.getD s.enrollmentDate,
   s.createdAt,
   now⟩

/-- Replacing the first list entry satisfying `q` by its image under `f`
(what a single-document update does to the collection). -/
def replaceFirst (q : Student → Bool) (f : Student → Student) :
    List Student → List Student
  | [] => []
  | x :: xs => if q x then f x :: xs else x :: replaceFirst q f xs

/-- The controller `updateStudent` (`src/DB2.js:150-194`) composed with
`findByIdAndUpdate`: a cast failure — on the id or on a body field — is a
`CastError`, answered with 400 "Invalid student ID"; a validator failure is
a 400 "Validation Error" with one message per violated supplied path; a
miss is 404; otherwise 200 with the post-update document (`new: true`). -/
def updateStudent (st : DBState) (i : String) (p : Payload) (now : Nat) :
    Response × DBState :=
  if !isValidObjectId i then
    (⟨400, false, some "Invalid student ID", none, none, none⟩, st)
  else if updateCastFails p then
    (⟨400, false, some "Invalid student ID", none, none, none⟩, st)
  else if updValidationErrors p = [] then
    match findById st i with
    | none => (⟨404, false, some "Student not found", none, none, none⟩, st)
    | some s =>
      (⟨200, true, some "Student updated successfully", none,
        some (.one (applyUpdate s p now)), none⟩,
       ⟨replaceFirst (fun t => t.id == i) (fun t => applyUpdate t p now)
         st.students⟩)
  else
    (⟨400, false, some "Validation Error", some (updValidationErrors p),
      none, none⟩, st)

/-- The controller `deleteStudent` (`src/DB2.js:197-226`) composed with
`findByIdAndDelete`: malformed id → 400 "Invalid student ID"; miss → 404;
hit → the document is removed and the answer is 200 with data `{}`. -/
def deleteStudent (st : DBState) (i : String) : Response × DBState :=
  if !isValidObjectId i then
    (⟨400, false, some "Invalid student ID", none, none, none⟩, st)
  else
    match findById st i with
    | none => (⟨404, false, some "Student not found", none, none, none⟩, st)
    | some _ =>
      (⟨200, true, some "Student deleted successfully", none,
        some .emptyObj, none⟩,
       ⟨st.students.eraseP fun s => s.id == i⟩)

/-- The controller `getStudentById` (`src/DB2.js:86-114`): a malformed id
makes `findById` throw a `CastError`, answered with 400 "Invalid student
ID"; a miss is 404 "Student not found"; a hit is 200 with the document. -/
def getStudentById (st : DBState) (i : String) : Response :=
  if !isValidObjectId i then
    ⟨400, false, some "Invalid student ID", none, none, none⟩
  else
    match findById st i with
    | none => ⟨404, false, some "Student not found", none, none, none⟩
    | some s => ⟨200, true, none, none, some (.one s), none⟩

/-- The controller `getAllStudents` (`src/DB2.js:68-83`):
`Student.find().sort({createdAt: -1})` — every document, most recently
created first — with `count` the length of the list. -/
def getAllStudents (st : DBState) : Response :=
  let l := st.students.mergeSort fun a b => decide (b.createdAt ≤ a.createdAt)
  ⟨200, true, none, none, some (.many l), some l.length⟩

/-- The controller `getStudentsByCourse` (`src/DB2.js:229-245`):
`Student.find({course: req.params.course})` — exact, case-sensitive match,
with no validation of the parameter — always answered with 200. -/
def getStudentsByCourse (st : DBState) (c : String) : Response :=
  let l := st.students.filter fun s => s.course == c
  ⟨200, true, none, none, some (.many l), some l.length⟩

/-! Concrete fixtures, used to instantiate the verified statements. -/

/-- A well-formed ObjectId string. -/
def sampleId : String := "507f1f77bcf86cd799439011"

/-- A second well-formed ObjectId string, distinct from `sampleId`. -/
def sampleId2 : String := "507f1f77bcf86cd799439012"

/-- A stored student document, as `createStudent` would have stored it. -/
def sampleStudent : Student :=
  ⟨sampleId, "John Doe", 20, "Computer Science", "john.doe@example.com",
   "C", 5, 5, 5⟩

/-- A store holding just `sampleStudent`. -/
def sampleState : DBState := ⟨[sampleStudent]⟩

/-- A fully valid create payload (mixed-case email, no grade). -/
def validPayload : Payload :=
  ⟨some (.jstr "John Doe"), some (.jnum 20), some (.jstr "Computer Science"),
   some (.jstr "John.Doe@Example.com"), none, none⟩

/-! Helper lemmas. -/

/-- When some create-time check fails, `createStudent` answers 400 with the
collected messages and leaves the store unchanged. -/
theorem createStudent_eq_of_errors (st : DBState) (p : Payload)
    (newId : String) (now : Nat) (hv : validationErrors p ≠ []) :
    createStudent st p newId now =
      (⟨400, false, some "Validation Error", some (validationErrors p),
        none, none⟩, st) := by
  unfold createStudent
  cases hn : nameCheck p.name <;> cases ha : ageCheck p.age <;>
    cases hc : courseCheck p.course <;> cases he : emailCheck p.email <;>
    cases hg : gradeCheck p.grade <;>
    simp_all [validationErrors, checkMsg]

/-- When every create-time check passes and the email is not yet stored,
`createStudent` stores and returns the fully populated document. -/
theorem createStudent_eq_of_ok (st : DBState) (p : Payload) (newId : String)
    (now : Nat) (nm co em gr : String) (ag : Int)
    (hn : nameCheck p.name = .ok nm) (ha : ageCheck p.age = .ok ag)
    (hc : courseCheck p.course = .ok co) (he : emailCheck p.email = .ok em)
    (hg : gradeCheck p.grade = .ok gr)
    (hu : ∀ s ∈ st.students, s.email ≠ em) :
    createStudent st p newId now =
      (⟨201, true, some "Student created successfully", none,
        some (.one ⟨newId, nm, ag, co, em, gr, p.enrollmentDate.getD now,
          now, now⟩), none⟩,
       ⟨st.students ++
         [⟨newId, nm, ag, co, em, gr, p.enrollmentDate.getD now, now, now⟩]⟩) := by
  have hany : (st.students.any fun s => s.email == em) = false := by
    rw [List.any_eq_false]
    intro s hs
    simpa using hu s hs
  unfold createStudent
  rw [hn, ha, hc, he, hg]
  simp [hany]

/-! Claim theorems. -/

/-- C1: for every create request whose payload has all fields satisfying
the field constraints (the four required paths present and valid, the
optional grade valid when supplied) and an email not already stored, the
operation returns 201 with a record whose id, createdAt and updatedAt are
the newly generated/assigned ones, whose grade is "C" when the payload
omits grade, and which is now stored. -/
theorem create_valid_unique_yields_201 (st : DBState) (p : Payload)
    (newId : String) (now : Nat) (nm co em gr : String) (ag : Int)
    (hn : nameCheck p.name = .ok nm) (ha : ageCheck p.age = .ok ag)
    (hc : courseCheck p.course = .ok co) (he : emailCheck p.email = .ok em)
    (hg : gradeCheck p.grade = .ok gr)
    (hu : ∀ s ∈ st.students, s.email ≠ em) :
    ∃ r : Student,
      (createStudent st p newId now).1.status = 201 ∧
      (createStudent st p newId now).1.data = some (RData.one r) ∧
      r.id = newId ∧ r.createdAt = now ∧ r.updatedAt = now ∧
      (p.grade = none → r.grade = "C") ∧
      r ∈ (createStudent st p newId now).2.students := by
  rw [createStudent_eq_of_ok st p newId now nm co em gr ag hn ha hc he hg hu]
  refine ⟨⟨newId, nm, ag, co, em, gr, p.enrollmentDate.getD now, now, now⟩,
    rfl, rfl, rfl, rfl, rfl, ?_, ?_⟩
  · intro hnone
    rw [hnone] at hg
    simpa [gradeCheck] using hg.symm
  · simp

/-- C1 witness: the theorem applied to the empty store and a concrete valid
payload. -/
theorem create_valid_unique_yields_201_witness :
    ∃ r : Student,
      (createStudent ⟨[]⟩ validPayload sampleId 5).1.status = 201 ∧
      (createStudent ⟨[]⟩ validPayload sampleId 5).1.data = some (RData.one r) ∧
      r.id = sampleId ∧ r.createdAt = 5 ∧ r.updatedAt = 5 ∧
      (validPayload.grade = none → r.grade = "C") ∧
      r ∈ (createStudent ⟨[]⟩ validPayload sampleId 5).2.students :=
  create_valid_unique_yields_201 ⟨[]⟩ validPayload sampleId 5
    "John Doe" "Computer Science" "john.doe@example.com" "C" 20
    (by decide) (by decide) (by decide) (by decide) (by decide)
    (by intro s hs; simp at hs)

/-- C3: a create payload violating one or more field constraints is
answered with 400 "Validation Error" and an errors list holding exactly one
human-readable message per violated field (all violations collected), and
the store is unchanged. -/
theorem create_validation_collects_all (st : DBState) (p : Payload)
    (newId : String) (now : Nat) (hv : validationErrors p ≠ []) :
    (createStudent st p newId now).1.status = 400 ∧
    (createStudent st p newId now).1.message = some "Validation Error" ∧
    (createStudent st p newId now).1.errors = some (validationErrors p) ∧
    (validationErrors p).length = violatedFieldCount p ∧
    (createStudent st p newId now).2 = st := by
  rw [createStudent_eq_of_errors st p newId now hv]
  refine ⟨rfl, rfl, rfl, ?_, rfl⟩
  simp [validationErrors, violatedFieldCount, Nat.add_assoc]

/-- C3 witness: the theorem applied to the all-absent payload, which
violates every required path. -/
theorem create_validation_collects_all_witness :
    (createStudent ⟨[]⟩ ⟨none, none, none, none, none, none⟩ sampleId 5).1.status
        = 400 ∧
    (createStudent ⟨[]⟩ ⟨none, none, none, none, none, none⟩ sampleId 5).1.message
        = some "Validation Error" ∧
    (createStudent ⟨[]⟩ ⟨none, none, none, none, none, none⟩ sampleId 5).1.errors
        = some (validationErrors ⟨none, none, none, none, none, none⟩) ∧
    (validationErrors ⟨none, none, none, none, none, none⟩).length =
        violatedFieldCount ⟨none, none, none, none, none, none⟩ ∧
    (createStudent ⟨[]⟩ ⟨none, none, none, none, none, none⟩ sampleId 5).2 = ⟨[]⟩ :=
  create_validation_collects_all ⟨[]⟩ ⟨none, none, none, none, none, none⟩
    sampleId 5 (by decide)

/-- C4: get-by-id answers 400 "Invalid student ID" on a malformed
identifier, 404 "Student not found" on a well-formed identifier matching no
stored student, and 200 with the record on a hit. -/
theorem getById_status_trichotomy (st : DBState) (i : String) :
    (isValidObjectId i = false →
      getStudentById st i =
        ⟨400, false, some "Invalid student ID", none, none, none⟩) ∧
    (isValidObjectId i = true → findById st i = none →
      getStudentById st i =
        ⟨404, false, some "Student not found", none, none, none⟩) ∧
    (∀ s : Student, isValidObjectId i = true → findById st i = some s →
      getStudentById st i = ⟨200, true, none, none, some (.one s), none⟩) := by
  refine ⟨?_, ?_, ?_⟩
  · intro h
    simp [getStudentById, h]
  · intro h hnone
    simp [getStudentById, h, hnone]
  · intro s h hs
    simp [getStudentById, h, hs]

/-- C4 witness: the theorem applied to the sample store, on the malformed
identifier "oops". -/
theorem getById_status_trichotomy_witness :
    getStudentById sampleState "oops" =
      ⟨400, false, some "Invalid student ID", none, none, none⟩ :=
  (getById_status_trichotomy sampleState "oops").1 (by decide)

/-- C9: list-by-course answers 200 with exactly the stored students whose
course equals the path parameter (exact, case-sensitive), the count being
the length; when every stored course is one of the 8 labels and the
parameter is not, the list is empty with count 0. -/
theorem byCourse_exact_filter (st : DBState) (c : String) :
    (getStudentsByCourse st c).status = 200 ∧
    (getStudentsByCourse st c).data =
      some (RData.many (st.students.filter fun s => s.course == c)) ∧
    (getStudentsByCourse st c).count =
      some (st.students.filter fun s => s.course == c).length ∧
    ((∀ s ∈ st.students, s.course ∈ courseValues) → c ∉ courseValues →
      (getStudentsByCourse st c).data = some (RData.many []) ∧
      (getStudentsByCourse st c).count = some 0) := by
  refine ⟨rfl, rfl, rfl, ?_⟩
  intro hall hc
  have hnil : (st.students.filter fun s => s.course == c) = [] := by
    rw [List.filter_eq_nil_iff]
    intro s hs
    simp only [beq_iff_eq]
    intro heq
    exact hc (heq ▸ hall s hs)
  constructor
  · show (getStudentsByCourse st c).data = _
    simp [getStudentsByCourse, hnil]
  · show (getStudentsByCourse st c).count = _
    simp [getStudentsByCourse, hnil]

/-- C9 witness: the theorem applied to the sample store and the unknown
course string "Astrology". -/
theorem byCourse_exact_filter_witness :
    (getStudentsByCourse sampleState "Astrology").data =
      some (RData.many []) ∧
    (getStudentsByCourse sampleState "Astrology").count = some 0 :=
  (byCourse_exact_filter sampleState "Astrology").2.2.2 (by decide) (by decide)

/-- C10: an update on a well-formed, matching identifier whose payload has
a value failing its field's cast (a non-numeric age) is answered with 400,
message "Invalid student ID" and no errors list — the handler maps every
cast failure to the malformed-identifier response — and the store is
unchanged. -/
theorem update_cast_failure_maps_to_invalid_id (st : DBState) (i : String)
    (p : Payload) (now : Nat) (s : Student) (v : JVal)
    (hid : isValidObjectId i = true)
    (_hfind : findById st i = some s)
    (hage : p.age = some v)
    (hcast : castNumber v = none) :
    (updateStudent st i p now).1 =
      ⟨400, false, some "Invalid student ID", none, none, none⟩ ∧
    (updateStudent st i p now).2 = st := by
  have hcf : updateCastFails p = true := by
    simp [updateCastFails, hage, hcast]
  unfold updateStudent
  simp [hid, hcf]

/-- C10 witness: the theorem applied to the sample store with the
non-numeric age "abc". -/
theorem update_cast_failure_maps_to_invalid_id_witness :
    (updateStudent sampleState sampleId
        ⟨none, some (.jstr "abc"), none, none, none, none⟩ 9).1 =
      ⟨400, false, some "Invalid student ID", none, none, none⟩ ∧
    (updateStudent sampleState sampleId
        ⟨none, some (.jstr "abc"), none, none, none, none⟩ 9).2 = sampleState :=
  update_cast_failure_maps_to_invalid_id sampleState sampleId
    ⟨none, some (.jstr "abc"), none, none, none, none⟩ 9 sampleStudent
    (.jstr "abc") (by decide) (by decide) (by decide) (by decide)

/-- A create payload that only supplies a duplicate email (in different
letter case) and omits every other field. -/
def dupPayload : Payload :=
  ⟨none, none, none, some (.jstr "John.Doe@Example.com"), none, none⟩

/-- C2 counterexample: a create request whose email case-insensitively
equals a stored student's email but whose payload is otherwise invalid is
answered with 400 "Validation Error", not "Email already exists" — Mongoose
validates before the unique index can report the duplicate. -/
theorem create_duplicate_email_claim_cex :
    (sampleState.students.any fun s =>
        lowerStr s.email == lowerStr (castString (JVal.jstr "John.Doe@Example.com"))) = true ∧
    (createStudent sampleState dupPayload sampleId2 6).1.status = 400 ∧
    ¬((createStudent sampleState dupPayload sampleId2 6).1.message =
        some "Email already exists") ∧
    (createStudent sampleState dupPayload sampleId2 6).1.message =
        some "Validation Error" := by decide

/-- C2 (amended): for every create request whose payload passes all field
constraints and whose email, ignoring letter case, equals the email of an
already-stored student (stored emails being lowercase), the operation
returns 400 with message "Email already exists" and the store is
unchanged. -/
theorem create_duplicate_email_400 (st : DBState) (p : Payload)
    (newId : String) (now : Nat) (nm co em gr : String) (ag : Int)
    (hn : nameCheck p.name = .ok nm) (ha : ageCheck p.age = .ok ag)
    (hc : courseCheck p.course = .ok co) (he : emailCheck p.email = .ok em)
    (hg : gradeCheck p.grade = .ok gr)
    (hlow : ∀ s ∈ st.students, lowerStr s.email = s.email)
    (s0 : Student) (hs0 : s0 ∈ st.students) (hdup : lowerStr s0.email = em) :
    (createStudent st p newId now).1.status = 400 ∧
    (createStudent st p newId now).1.message = some "Email already exists" ∧
    (createStudent st p newId now).2 = st := by
  have hany : (st.students.any fun s => s.email == em) = true := by
    rw [List.any_eq_true]
    exact ⟨s0, hs0, by rw [beq_iff_eq, ← hlow s0 hs0]; exact hdup⟩
  unfold createStudent
  rw [hn, ha, hc, he, hg]
  simp [hany]

/-- C2 witness: the amended theorem applied to the sample store and a
fully valid payload repeating the stored email in mixed case. -/
theorem create_duplicate_email_400_witness :
    (createStudent sampleState validPayload sampleId2 6).1.status = 400 ∧
    (createStudent sampleState validPayload sampleId2 6).1.message =
      some "Email already exists" ∧
    (createStudent sampleState validPayload sampleId2 6).2 = sampleState :=
  create_duplicate_email_400 sampleState validPayload sampleId2 6
    "John Doe" "Computer Science" "john.doe@example.com" "C" 20
    (by decide) (by decide) (by decide) (by decide) (by decide)
    (by decide) sampleStudent (by decide) (by decide)

/-- An update payload with an out-of-enumeration course and a non-numeric
age. -/
def badCoursePayload : Payload :=
  ⟨none, some (.jstr "abc"), some (.jstr "Astrology"), none, none, none⟩

/-- An update payload whose raw course string lies outside the enumeration
but trims to a valid label. -/
def trimCoursePayload : Payload :=
  ⟨none, none, some (.jstr " Arts "), none, none, none⟩

/-- C5 counterexample: on an existing, well-formed identifier, (a) a
payload setting course to "Astrology" alongside a non-numeric age is
answered by the `CastError` branch — 400 "Invalid student ID" with no
errors list, so no message names the invalid course value; and (b) a
payload setting course to the raw string " Arts " (outside the 8-entry
enumeration) is trimmed by the setter and the update succeeds with 200. -/
theorem update_bad_course_claim_cex :
    (updateStudent sampleState sampleId badCoursePayload 9).1 =
      ⟨400, false, some "Invalid student ID", none, none, none⟩ ∧
    courseValues.contains " Arts " = false ∧
    (updateStudent sampleState sampleId trimCoursePayload 9).1.status = 200 := by
  decide

/-- C5 (amended): for every update request on an existing, well-formed
identifier whose payload sets course to a string whose trimmed form is
outside the 8-value enumeration, and whose other supplied fields cast
successfully, the operation returns 400 with an error message naming the
invalid (trimmed) value, and the stored records are unchanged. -/
theorem update_bad_course_400_names_value (st : DBState) (i : String)
    (p : Payload) (now : Nat) (s : Student) (v : JVal)
    (hid : isValidObjectId i = true)
    (_hfind : findById st i = some s)
    (hcv : p.course = some v)
    (hbad : courseValues.contains (trimStr (castString v)) = false)
    (hcast : updateCastFails p = false) :
    (updateStudent st i p now).1.status = 400 ∧
    (trimStr (castString v) ++ " is not a valid course") ∈
      ((updateStudent st i p now).1.errors).getD [] ∧
    (updateStudent st i p now).2 = st := by
  have hbad2 : trimStr (castString v) ∉ courseValues := by
    simpa using hbad
  have hcourse : updCourseCheck p.course =
      .error (trimStr (castString v) ++ " is not a valid course") := by
    simp [updCourseCheck, hcv, hbad2]
  have hmem : (trimStr (castString v) ++ " is not a valid course") ∈
      updValidationErrors p := by
    simp [updValidationErrors, hcourse, checkMsg]
  have hne : updValidationErrors p ≠ [] := by
    intro h
    rw [h] at hmem
    exact (List.not_mem_nil _) hmem
  unfold updateStudent
  simp [hid, hcast, hne, hmem, hbad2]

/-- C5 witness: the amended theorem applied to the sample store and the
payload setting course to "Astrology" alone. -/
theorem update_bad_course_400_names_value_witness :
    (updateStudent sampleState sampleId
        ⟨none, none, some (.jstr "Astrology"), none, none, none⟩ 9).1.status = 400 ∧
    (trimStr (castString (JVal.jstr "Astrology")) ++ " is not a valid course") ∈
      ((updateStudent sampleState sampleId
        ⟨none, none, some (.jstr "Astrology"), none, none, none⟩ 9).1.errors).getD [] ∧
    (updateStudent sampleState sampleId
        ⟨none, none, some (.jstr "Astrology"), none, none, none⟩ 9).2 = sampleState :=
  update_bad_course_400_names_value sampleState sampleId
    ⟨none, none, some (.jstr "Astrology"), none, none, none⟩ 9 sampleStudent
    (.jstr "Astrology") (by decide) (by decide) (by decide) (by decide) (by decide)

/-! An operation layer over the six endpoints, to state store invariants
across arbitrary request sequences. -/

/-- One incoming request, together with the environment inputs (generated
ObjectId, current time) its handling consumes. -/
inductive Op where
  | create (p : Payload) (newId : String) (now : Nat)
  | getAll
  | getOne (i : String)
  | update (i : String) (p : Payload) (now : Nat)
  | delete (i : String)
  | byCourse (c : String)

/-- The successor store state of one request (read-only requests leave the
store untouched). -/
def applyOp (st : DBState) : Op → DBState
  | .create p newId now => (createStudent st p newId now).2
  | .getAll => st
  | .getOne _ => st
  | .update i p now => (updateStudent st i p now).2
  | .delete i => (deleteStudent st i).2
  | .byCourse _ => st

/-- The store state after a sequence of requests. -/
def runOps (st : DBState) (ops : List Op) : DBState := ops.foldl applyOp st

/-- The ObjectIds the store generates while handling one request. -/
def opNewIds : Op → List String
  | .create _ newId _ => [newId]
  | _ => []

/-- The ObjectIds the store generates along a sequence of requests. -/
def opsNewIds (ops : List Op) : List String :=
  ops.foldr (fun op acc => opNewIds op ++ acc) []

/-- Replacing the first match keeps the list of ids pointwise, whenever the
replacement function preserves the id. -/
theorem map_id_replaceFirst (q : Student → Bool) (f : Student → Student)
    (h : ∀ s, (f s).id = s.id) :
    ∀ l : List Student,
      ((replaceFirst q f l).map fun s => s.id) = l.map fun s => s.id
  | [] => rfl
  | x :: xs => by
    by_cases hq : q x
    · simp [replaceFirst, hq, h x]
    · simp [replaceFirst, hq, map_id_replaceFirst q f h xs]

/-- `updateStudent` never changes any stored id: the id column of the store
is untouched, whichever branch the handler takes. -/
theorem updateStudent_state_ids (st : DBState) (i : String) (p : Payload)
    (now : Nat) :
    ((updateStudent st i p now).2.students.map fun s => s.id) =
      st.students.map fun s => s.id := by
  unfold updateStudent
  split
  · rfl
  · split
    · rfl
    · split
      · cases hf : findById st i with
        | none => simp [hf]
        | some s =>
          simp [hf, map_id_replaceFirst (fun t => t.id == i)
            (fun t => applyUpdate t p now) (fun t => rfl) st.students]
      · rfl

/-- The state `createStudent` leaves behind: either untouched (validation
failure or duplicate email) or the old collection with the one new
document, carrying the generated id, appended. -/
theorem createStudent_state_shape (st : DBState) (p : Payload)
    (newId : String) (now : Nat) :
    (createStudent st p newId now).2 = st ∨
    ∃ r : Student, r.id = newId ∧
      (createStudent st p newId now).2 = ⟨st.students ++ [r]⟩ := by
  unfold createStudent
  cases hn : nameCheck p.name with
  | error m => exact Or.inl rfl
  | ok nm =>
    cases ha : ageCheck p.age with
    | error m => exact Or.inl rfl
    | ok ag =>
      cases hc : courseCheck p.course with
      | error m => exact Or.inl rfl
      | ok co =>
        cases he : emailCheck p.email with
        | error m => exact Or.inl rfl
        | ok em =>
          cases hg : gradeCheck p.grade with
          | error m => exact Or.inl rfl
          | ok gr =>
            by_cases hdup : (st.students.any fun s => s.email == em) = true
            · exact Or.inl (by simp [hdup])
            · refine Or.inr ⟨⟨newId, nm, ag, co, em, gr,
                p.enrollmentDate.getD now, now, now⟩, rfl, ?_⟩
              simp [hdup]

/-- `deleteStudent` only ever removes documents. -/
theorem deleteStudent_state_sublist (st : DBState) (i : String) :
    (deleteStudent st i).2.students.Sublist st.students := by
  unfold deleteStudent
  split
  · exact List.Sublist.refl _
  · cases hf : findById st i with
    | none => simp [hf]
    | some s =>
      simp only [hf]
      exact List.eraseP_sublist _

/-- Every id present after one request was either present before it or was
generated by the store while handling it. -/
theorem applyOp_ids (st : DBState) (op : Op) (x : String)
    (hx : x ∈ (applyOp st op).students.map fun s => s.id) :
    x ∈ (st.students.map fun s => s.id) ∨ x ∈ opNewIds op := by
  cases op with
  | create p newId now =>
    rcases createStudent_state_shape st p newId now with h | ⟨r, hrid, h⟩
    · rw [applyOp, h] at hx
      exact Or.inl hx
    · rw [applyOp, h] at hx
      simp only [List.map_append, List.map_cons, List.map_nil,
        List.mem_append, List.mem_cons, List.not_mem_nil, or_false] at hx
      rcases hx with hx | hx
      · exact Or.inl hx
      · exact Or.inr (by simp [opNewIds, hx, hrid])
  | getAll => exact Or.inl hx
  | getOne i => exact Or.inl hx
  | update i p now =>
    rw [applyOp, updateStudent_state_ids] at hx
    exact Or.inl hx
  | delete i =>
    rcases List.mem_map.mp hx with ⟨t, ht, rfl⟩
    exact Or.inl (List.mem_map_of_mem _
      ((deleteStudent_state_sublist st i).subset ht))
  | byCourse c => exact Or.inl hx

/-- Every id present after a sequence of requests was either present at the
start or was generated by the store along the way: no request ever rewrites
a stored id. -/
theorem runOps_ids (ops : List Op) :
    ∀ st : DBState, ∀ t : Student, t ∈ (runOps st ops).students →
      t.id ∈ (st.students.map fun s => s.id) ∨ t.id ∈ opsNewIds ops := by
  induction ops with
  | nil =>
    intro st t ht
    exact Or.inl (List.mem_map_of_mem _ ht)
  | cons op ops ih =>
    intro st t ht
    have hrun : runOps st (op :: ops) = runOps (applyOp st op) ops := rfl
    rw [hrun] at ht
    have hcons : opsNewIds (op :: ops) = opNewIds op ++ opsNewIds ops := rfl
    rcases ih (applyOp st op) t ht with h | h
    · rcases applyOp_ids st op t.id h with h2 | h2
      · exact Or.inl h2
      · exact Or.inr (by rw [hcons]; exact List.mem_append_left _ h2)
    · exact Or.inr (by rw [hcons]; exact List.mem_append_right _ h)

/-- C6: a student's id never changes after creation — every update request
leaves the store's id column untouched, a 200-answered update returns a
record bearing the id of the pre-update record it matched, and across any
request sequence every stored id either predates the sequence or is one
the store itself generated (so no request ever rewrites an id). -/
theorem student_id_immutable (st : DBState) (i : String) (p : Payload)
    (now : Nat) :
    (((updateStudent st i p now).2.students.map fun s => s.id) =
      st.students.map fun s => s.id) ∧
    (∀ r : Student, (updateStudent st i p now).1.data = some (RData.one r) →
      ∃ s0 : Student, findById st i = some s0 ∧ r.id = s0.id) ∧
    (∀ ops : List Op, ∀ t : Student, t ∈ (runOps st ops).students →
      t.id ∈ (st.students.map fun s => s.id) ∨ t.id ∈ opsNewIds ops) := by
  refine ⟨updateStudent_state_ids st i p now, ?_, fun ops => runOps_ids ops st⟩
  intro r hr
  unfold updateStudent at hr
  split at hr
  · simp at hr
  · split at hr
    · simp at hr
    · split at hr
      · cases hf : findById st i with
        | none => rw [hf] at hr; simp at hr
        | some s0 =>
          rw [hf] at hr
          simp only [Option.some.injEq, RData.one.injEq] at hr
          exact ⟨s0, rfl, by rw [← hr]; rfl⟩
      · simp at hr

/-- C6 witness: the theorem applied at a concrete store, identifier,
payload and time. -/
theorem student_id_immutable_witness :
    ((updateStudent sampleState sampleId validPayload 9).2.students.map
      fun s => s.id) = sampleState.students.map fun s => s.id :=
  (student_id_immutable sampleState sampleId validPayload 9).1

/-- After erasing the first document with a given id from a collection
whose ids are pairwise distinct, no document with that id remains. -/
theorem eraseP_id_all_ne (i : String) :
    ∀ l : List Student, ((l.map fun t => t.id).Nodup) →
      ∀ t ∈ l.eraseP (fun t => t.id == i), t.id ≠ i := by
  intro l
  induction l with
  | nil =>
    intro _ t ht
    simp [List.eraseP] at ht
  | cons x xs ih =>
    intro hnd t ht
    rw [List.map_cons, List.nodup_cons] at hnd
    by_cases hx : x.id = i
    · rw [List.eraseP_cons_of_pos (by simp [hx])] at ht
      intro hti
      exact hnd.1 (by rw [hx, ← hti]; exact List.mem_map_of_mem _ ht)
    · rw [List.eraseP_cons_of_neg (by simp [hx])] at ht
      rcases List.mem_cons.mp ht with rfl | ht
      · exact hx
      · exact ih hnd.2 t ht

/-- C7: deleting a stored student by its (store-generated, hence
well-formed and unique) identifier answers 200 with the empty data
payload, and a subsequent get-by-id with the same identifier answers
404 "Student not found". -/
theorem delete_then_get_not_found (st : DBState) (s : Student)
    (hs : s ∈ st.students) (hid : isValidObjectId s.id = true)
    (hnd : (st.students.map fun t => t.id).Nodup) :
    (deleteStudent st s.id).1.status = 200 ∧
    (deleteStudent st s.id).1.data = some RData.emptyObj ∧
    getStudentById (deleteStudent st s.id).2 s.id =
      ⟨404, false, some "Student not found", none, none, none⟩ := by
  have hsome : (st.students.find? fun t => t.id == s.id).isSome := by
    rw [List.find?_isSome]
    exact ⟨s, hs, by simp⟩
  obtain ⟨w, hw⟩ := Option.isSome_iff_exists.mp hsome
  have hw2 : findById st s.id = some w := hw
  have hdel : deleteStudent st s.id =
      (⟨200, true, some "Student deleted successfully", none,
        some RData.emptyObj, none⟩,
       ⟨st.students.eraseP fun t => t.id == s.id⟩) := by
    unfold deleteStudent
    simp [hid, hw2]
  have hfind2 :
      findById ⟨st.students.eraseP fun t => t.id == s.id⟩ s.id = none := by
    rw [findById, List.find?_eq_none]
    intro t ht
    simpa using eraseP_id_all_ne s.id st.students hnd t ht
  rw [hdel]
  refine ⟨rfl, rfl, ?_⟩
  simp [getStudentById, hid, hfind2]

/-- C7 witness: the theorem applied to the sample store and its one
stored student. -/
theorem delete_then_get_not_found_witness :
    (deleteStudent sampleState sampleStudent.id).1.status = 200 ∧
    (deleteStudent sampleState sampleStudent.id).1.data =
      some RData.emptyObj ∧
    getStudentById (deleteStudent sampleState sampleStudent.id).2
        sampleStudent.id =
      ⟨404, false, some "Student not found", none, none, none⟩ :=
  delete_then_get_not_found sampleState sampleStudent (by decide) (by decide)
    (by decide)

/-- C8: list-all answers 200 with a permutation of the whole store sorted
by descending creation time — every stored student, most recently created
first, no filtering, no pagination — and a count equal to the number of
returned records. -/
theorem getAll_sorted_desc_complete (st : DBState) :
    (getAllStudents st).status = 200 ∧
    ∃ l : List Student,
      (getAllStudents st).data = some (RData.many l) ∧
      l.Perm st.students ∧
      l.Pairwise (fun a b => b.createdAt ≤ a.createdAt) ∧
      (getAllStudents st).count = some l.length := by
  refine ⟨rfl,
    st.students.mergeSort fun a b => decide (b.createdAt ≤ a.createdAt),
    rfl, ?_, ?_, rfl⟩
  · exact List.mergeSort_perm st.students _
  · have hp := @List.sorted_mergeSort Student
      (fun a b : Student => decide (b.createdAt ≤ a.createdAt))
      (fun a b c hab hbc =>
        decide_eq_true (Nat.le_trans (of_decide_eq_true hbc)
          (of_decide_eq_true hab)))
      (fun a b => by
        simpa [Bool.or_eq_true, decide_eq_true_eq] using
          Nat.le_total b.createdAt a.createdAt)
      st.students
    exact hp.imp fun h => of_decide_eq_true h

end StudentAPI
